import Mathlib

/-!
Verification of the simulation core of a small Breakout / Space-Invaders
variant.  The game logic of src/main.rs (constants, paddle movement,
velocity integration, firing, alien spawning, collision resolution and the
lives-driven game-over transition) is embedded shallowly: positions,
velocities and sizes become rational numbers (every constant involved is
exactly representable, and all arithmetic performed on them by the source
is exact at these magnitudes), entity queries become lists, deferred
despawn commands become an accumulated list of entity ids, and the wrapping
behaviour of the i16 score and u16 lives counters is made explicit.
-/

namespace LearnBevy

/-- A 2-dimensional vector, the embedding of the engine Vec2 (and of the
Vec3 values whose z component the source never uses after truncation). -/
structure Vec2Q where
  x : ℚ
  y : ℚ
deriving DecidableEq, Repr

/-- PADDLE_SIZE from src/main.rs (a Vec3 whose z component is 0 and is
always truncated away before use). -/
def PADDLE_SIZE : Vec2Q := ⟨120, 20⟩

/-- GAP_BETWEEN_PADDLE_AND_FLOOR from src/main.rs. -/
def GAP_BETWEEN_PADDLE_AND_FLOOR : ℚ := 60

/-- PADDLE_SPEED from src/main.rs. -/
def PADDLE_SPEED : ℚ := 700

/-- PADDLE_PADDING from src/main.rs. -/
def PADDLE_PADDING : ℚ := 10

/-- BULLET_SIZE from src/main.rs (z truncated). -/
def BULLET_SIZE : Vec2Q := ⟨15, 15⟩

/-- BULLET_SPEED from src/main.rs. -/
def BULLET_SPEED : ℚ := 700

/-- ALIEN_SPEED from src/main.rs. -/
def ALIEN_SPEED : ℚ := 300

/-- INITIAL_BULLET_DIRECTION from src/main.rs. -/
def INITIAL_BULLET_DIRECTION : Vec2Q := ⟨0, 1⟩

/-- INITIAL_ALIEN_DIRECTION from src/main.rs. -/
def INITIAL_ALIEN_DIRECTION : Vec2Q := ⟨0, -1⟩

/-- WALL_THICKNESS from src/main.rs. -/
def WALL_THICKNESS : ℚ := 10

/-- LEFT_WALL from src/main.rs. -/
def LEFT_WALL : ℚ := -450

/-- RIGHT_WALL from src/main.rs. -/
def RIGHT_WALL : ℚ := 450

/-- BOTTOM_WALL from src/main.rs. -/
def BOTTOM_WALL : ℚ := -300

/-- TOP_WALL from src/main.rs. -/
def TOP_WALL : ℚ := 300

/-- ALIEN_SIZE from src/main.rs. -/
def ALIEN_SIZE : Vec2Q := ⟨70, 30⟩

/-- Modelled from the spec: the engine AABB collision primitive used by
check_for_collisions (the engine itself is not part of this repository).
Per the spec, the overlap test is the standard inclusive AABB intersection:
overlap on both axes, a zero-width or zero-height touch counting as a
collision.  Arguments follow the engine signature: position and size of the
first box, then position and size of the second; is_some of the engine
result becomes this Bool. -/
def collide (aPos aSize bPos bSize : Vec2Q) : Bool :=
  decide (aPos.x - aSize.x / 2 ≤ bPos.x + bSize.x / 2) &&
  decide (bPos.x - bSize.x / 2 ≤ aPos.x + aSize.x / 2) &&
  decide (aPos.y - aSize.y / 2 ≤ bPos.y + bSize.y / 2) &&
  decide (bPos.y - bSize.y / 2 ≤ aPos.y + aSize.y / 2)

/-- Rust f32::clamp as used on the paddle position: values below the lower
bound are raised to it, values above the upper bound lowered to it. -/
def clampQ (v lo hi : ℚ) : ℚ :=
  if v < lo then lo else if v > hi then hi else v

/-- left_bound computed inside move_paddle in src/main.rs. -/
def left_bound : ℚ := LEFT_WALL + WALL_THICKNESS / 2 + PADDLE_SIZE.x / 2 + PADDLE_PADDING

/-- right_bound computed inside move_paddle in src/main.rs. -/
def right_bound : ℚ := RIGHT_WALL - WALL_THICKNESS / 2 - PADDLE_SIZE.x / 2 - PADDLE_PADDING

/-- move_paddle from src/main.rs: direction starts at 0, left held subtracts
1, right held adds 1; the new x position is the old one displaced by
direction * PADDLE_SPEED * dt and clamped into the movement bounds. -/
def move_paddle (x : ℚ) (leftHeld rightHeld : Bool) (dt : ℚ) : ℚ :=
  let direction : ℚ := (if leftHeld then -1 else 0) + (if rightHeld then 1 else 0)
  clampQ (x + direction * PADDLE_SPEED * dt) left_bound right_bound

/-- One tick of keyboard input to move_paddle together with the elapsed
time the engine supplies for that tick. -/
structure MoveInput where
  leftHeld : Bool
  rightHeld : Bool
  dt : ℚ
deriving DecidableEq, Repr

/-- Repeated application of move_paddle over a sequence of ticks. -/
def move_paddle_run (x : ℚ) (steps : List MoveInput) : ℚ :=
  steps.foldl (fun p s => move_paddle p s.leftHeld s.rightHeld s.dt) x

/-- apply_velocity from src/main.rs, on one entity: each axis of the
translation is advanced by the matching velocity component times the
elapsed time. -/
def apply_velocity (pos vel : Vec2Q) (dt : ℚ) : Vec2Q :=
  ⟨pos.x + vel.x * dt, pos.y + vel.y * dt⟩

/-- The two game states of src/main.rs (GameState). -/
inductive GameState where
  | InGame
  | GameOver
deriving DecidableEq, Repr

/-- update_lives_remaining from src/main.rs, restricted to its state
effect: when the lives count is below 1 it queues the GameOver state,
otherwise it leaves the pending next state unchanged.  The pending state
resource (NextState) is modelled as an Option. -/
def update_lives_remaining (lives : ℕ) (pending : Option GameState) : Option GameState :=
  if lives < 1 then some GameState.GameOver else pending

/-- paddle_y computed in setup in src/main.rs. -/
def paddle_y : ℚ := BOTTOM_WALL + GAP_BETWEEN_PADDLE_AND_FLOOR

/-- C2.  The claim asserts left_bound = -370 and right_bound = 370 and that
a left move with dt = 1 from x = 0 clamps to -370.  In the source the
bounds subtract half the wall thickness (5), half the paddle width (60) and
the padding (10) from each arena edge, giving -375 and 375, and the clamped
position is -375; so the claim as stated is false. -/
theorem C2_counterexample :
    left_bound = -375 ∧ ¬ left_bound = -370 ∧
    move_paddle 0 true false 1 = -375 ∧ ¬ move_paddle 0 true false 1 = -370 := by
  refine ⟨by norm_num [left_bound, LEFT_WALL, WALL_THICKNESS, PADDLE_SIZE, PADDLE_PADDING], ?_, ?_, ?_⟩
  · norm_num [left_bound, LEFT_WALL, WALL_THICKNESS, PADDLE_SIZE, PADDLE_PADDING]
  · norm_num [move_paddle, clampQ, left_bound, right_bound, LEFT_WALL, RIGHT_WALL,
      WALL_THICKNESS, PADDLE_SIZE, PADDLE_PADDING, PADDLE_SPEED]
  · norm_num [move_paddle, clampQ, left_bound, right_bound, LEFT_WALL, RIGHT_WALL,
      WALL_THICKNESS, PADDLE_SIZE, PADDLE_PADDING, PADDLE_SPEED]

/-- C2 (amended).  With paddle at x = 0, paddle width 120, LEFT_WALL = -450,
RIGHT_WALL = 450, padding 10 and wall thickness 10, the movement bounds are
left_bound = -375 and right_bound = 375 (each edge loses half the wall
thickness, half the paddle width and the padding), and moving left at speed
700 for dt = 1 s from x = 0 yields a paddle position clamped to x = -375
(not -700). -/
theorem C2_paddle_bounds_scenario :
    left_bound = LEFT_WALL + WALL_THICKNESS / 2 + PADDLE_SIZE.x / 2 + PADDLE_PADDING ∧
    right_bound = RIGHT_WALL - WALL_THICKNESS / 2 - PADDLE_SIZE.x / 2 - PADDLE_PADDING ∧
    left_bound = -375 ∧ right_bound = 375 ∧
    move_paddle 0 true false 1 = -375 := by
  refine ⟨rfl, rfl, ?_, ?_, ?_⟩
  · norm_num [left_bound, LEFT_WALL, WALL_THICKNESS, PADDLE_SIZE, PADDLE_PADDING]
  · norm_num [right_bound, RIGHT_WALL, WALL_THICKNESS, PADDLE_SIZE, PADDLE_PADDING]
  · norm_num [move_paddle, clampQ, left_bound, right_bound, LEFT_WALL, RIGHT_WALL,
      WALL_THICKNESS, PADDLE_SIZE, PADDLE_PADDING, PADDLE_SPEED]

/-- C6.  One motion-integration step moves each axis by velocity times dt,
and integrating with dt1 and then dt2 equals integrating once with
dt1 + dt2. -/
theorem C6_motion_integration (p v : Vec2Q) (dt1 dt2 : ℚ)
    (h1 : 0 ≤ dt1) (h2 : 0 ≤ dt2) :
    apply_velocity p v dt1 = ⟨p.x + v.x * dt1, p.y + v.y * dt1⟩ ∧
    apply_velocity (apply_velocity p v dt1) v dt2 = apply_velocity p v (dt1 + dt2) := by
  refine ⟨rfl, ?_⟩
  simp only [apply_velocity, Vec2Q.mk.injEq]
  constructor <;> ring

/-- Witness for C6 at p = (3, 4), v = (5, -6), dt1 = 1, dt2 = 2. -/
theorem C6_motion_integration_witness :
    apply_velocity ⟨3, 4⟩ ⟨5, -6⟩ 1 = ⟨(3 : ℚ) + 5 * 1, (4 : ℚ) + -6 * 1⟩ ∧
    apply_velocity (apply_velocity ⟨3, 4⟩ ⟨5, -6⟩ 1) ⟨5, -6⟩ 2 =
      apply_velocity ⟨3, 4⟩ ⟨5, -6⟩ (1 + 2) :=
  C6_motion_integration ⟨3, 4⟩ ⟨5, -6⟩ 1 2 (by norm_num) (by norm_num)

/-- C5.  If the lives count is below 1 when the state-check runs, the game
state queued by the end of that phase is GameOver, never InGame. -/
theorem C5_game_over_on_zero_lives (lives : ℕ) (pending : Option GameState)
    (h : lives < 1) :
    update_lives_remaining lives pending = some GameState.GameOver ∧
    ¬ update_lives_remaining lives pending = some GameState.InGame := by
  unfold update_lives_remaining
  rw [if_pos h]
  exact ⟨rfl, by simp⟩

/-- Witness for C5 at lives = 0 with no transition pending. -/
theorem C5_game_over_on_zero_lives_witness :
    update_lives_remaining 0 none = some GameState.GameOver ∧
    ¬ update_lives_remaining 0 none = some GameState.InGame :=
  C5_game_over_on_zero_lives 0 none (by norm_num)

/-- The four wall placements of src/main.rs (WallLocation). -/
inductive WallLocation where
  | Left
  | Right
  | Bottom
  | Top
deriving DecidableEq, Repr

/-- WallLocation::position from src/main.rs (position_3d only adds a zero z
component that every use truncates away again). -/
def WallLocation.position : WallLocation → Vec2Q
  | WallLocation.Left => ⟨LEFT_WALL, 0⟩
  | WallLocation.Right => ⟨RIGHT_WALL, 0⟩
  | WallLocation.Bottom => ⟨0, BOTTOM_WALL⟩
  | WallLocation.Top => ⟨0, TOP_WALL⟩

/-- WallLocation::size from src/main.rs: the side walls are one wall
thickness wide and the arena height plus one thickness tall, the bottom and
top walls the arena width plus one thickness wide and one thickness tall. -/
def WallLocation.size : WallLocation → Vec2Q
  | WallLocation.Left => ⟨WALL_THICKNESS, TOP_WALL - BOTTOM_WALL + WALL_THICKNESS⟩
  | WallLocation.Right => ⟨WALL_THICKNESS, TOP_WALL - BOTTOM_WALL + WALL_THICKNESS⟩
  | WallLocation.Bottom => ⟨RIGHT_WALL - LEFT_WALL + WALL_THICKNESS, WALL_THICKNESS⟩
  | WallLocation.Top => ⟨RIGHT_WALL - LEFT_WALL + WALL_THICKNESS, WALL_THICKNESS⟩

theorem clampQ_mem (v lo hi : ℚ) (h : lo ≤ hi) :
    lo ≤ clampQ v lo hi ∧ clampQ v lo hi ≤ hi := by
  unfold clampQ
  split_ifs with h1 h2
  · exact ⟨le_refl lo, h⟩
  · exact ⟨h, le_refl hi⟩
  · exact ⟨not_lt.mp h1, not_lt.mp h2⟩

theorem move_paddle_mem (x : ℚ) (l r : Bool) (dt : ℚ) :
    left_bound ≤ move_paddle x l r dt ∧ move_paddle x l r dt ≤ right_bound := by
  have hlr : left_bound ≤ right_bound := by
    norm_num [left_bound, right_bound, LEFT_WALL, RIGHT_WALL, WALL_THICKNESS,
      PADDLE_SIZE, PADDLE_PADDING]
  unfold move_paddle
  exact clampQ_mem _ left_bound right_bound hlr

theorem move_paddle_run_mem (x : ℚ) (steps : List MoveInput) (hne : ¬ steps = []) :
    left_bound ≤ move_paddle_run x steps ∧ move_paddle_run x steps ≤ right_bound := by
  induction steps generalizing x with
  | nil => exact absurd rfl hne
  | cons s t ih =>
    cases t with
    | nil =>
      simpa [move_paddle_run] using move_paddle_mem x s.leftHeld s.rightHeld s.dt
    | cons s2 t2 =>
      have h := ih (move_paddle x s.leftHeld s.rightHeld s.dt) (by simp)
      simpa [move_paddle_run] using h

theorem paddle_no_side_wall_overlap (x : ℚ)
    (hl : left_bound ≤ x) (hr : x ≤ right_bound) :
    collide WallLocation.Left.position WallLocation.Left.size
      ⟨x, paddle_y⟩ PADDLE_SIZE = false ∧
    collide WallLocation.Right.position WallLocation.Right.size
      ⟨x, paddle_y⟩ PADDLE_SIZE = false := by
  norm_num [left_bound, LEFT_WALL, WALL_THICKNESS, PADDLE_SIZE, PADDLE_PADDING] at hl
  norm_num [right_bound, RIGHT_WALL, WALL_THICKNESS, PADDLE_SIZE, PADDLE_PADDING] at hr
  constructor <;>
  · rw [← Bool.not_eq_true]
    simp only [collide, WallLocation.position, WallLocation.size, PADDLE_SIZE, paddle_y,
      BOTTOM_WALL, GAP_BETWEEN_PADDLE_AND_FLOOR, TOP_WALL, LEFT_WALL, RIGHT_WALL,
      WALL_THICKNESS, Bool.and_eq_true, decide_eq_true_eq]
    intro h
    rcases h with ⟨⟨⟨h1, h2⟩, h3⟩, h4⟩
    linarith

/-- C7.  For every input sequence and every sequence of non-negative time
deltas, the paddle position after each move step lies in the movement
bounds (which subtract half the wall thickness, half the paddle width and
the fixed padding from each arena edge), so the paddle rectangle never
overlaps the left or right wall rectangle.  Since the statement quantifies
over all sequences, it in particular covers every prefix of a longer run,
i.e. the position after each individual step. -/
theorem C7_paddle_stays_in_bounds (x : ℚ) (steps : List MoveInput)
    (hne : ¬ steps = []) (hdt : ∀ s ∈ steps, 0 ≤ s.dt) :
    left_bound ≤ move_paddle_run x steps ∧ move_paddle_run x steps ≤ right_bound ∧
    collide WallLocation.Left.position WallLocation.Left.size
      ⟨move_paddle_run x steps, paddle_y⟩ PADDLE_SIZE = false ∧
    collide WallLocation.Right.position WallLocation.Right.size
      ⟨move_paddle_run x steps, paddle_y⟩ PADDLE_SIZE = false := by
  obtain ⟨h1, h2⟩ := move_paddle_run_mem x steps hne
  obtain ⟨h3, h4⟩ := paddle_no_side_wall_overlap _ h1 h2
  exact ⟨h1, h2, h3, h4⟩

/-- Witness for C7: a single left move with dt = 1 from x = 0. -/
theorem C7_paddle_stays_in_bounds_witness :
    left_bound ≤ move_paddle_run 0 [⟨true, false, 1⟩] ∧
    move_paddle_run 0 [⟨true, false, 1⟩] ≤ right_bound ∧
    collide WallLocation.Left.position WallLocation.Left.size
      ⟨move_paddle_run 0 [⟨true, false, 1⟩], paddle_y⟩ PADDLE_SIZE = false ∧
    collide WallLocation.Right.position WallLocation.Right.size
      ⟨move_paddle_run 0 [⟨true, false, 1⟩], paddle_y⟩ PADDLE_SIZE = false :=
  C7_paddle_stays_in_bounds 0 [⟨true, false, 1⟩] (by simp)
    (by intro s hs; simp at hs; subst hs; norm_num)

/-- Modelled from the spec: the engine Vec2::normalize primitive (not part
of this repository), defined for the axis-aligned vectors the source
applies it to — the source only ever normalizes the unit vectors (0, 1) and
(0, -1); a vector with both components nonzero (or the zero vector) never
reaches it here. -/
def vecNormalize (v : Vec2Q) : Vec2Q :=
  if v.x = 0 then ⟨0, if v.y < 0 then -1 else 1⟩
  else if v.y = 0 then ⟨if v.x < 0 then -1 else 1, 0⟩
  else v

/-- Scalar multiplication of a vector, the engine Vec2 * f32. -/
def vecScale (v : Vec2Q) (k : ℚ) : Vec2Q := ⟨v.x * k, v.y * k⟩

/-- A spawned moving entity: the translation and the Velocity component the
source attaches to a newly created bullet or alien. -/
structure SpawnedEnt where
  position : Vec2Q
  velocity : Vec2Q
deriving DecidableEq, Repr

/-- lower_bound computed in spawn_alien in src/main.rs: LEFT_WALL plus the
full alien width. -/
def spawn_lower_bound : ℚ := LEFT_WALL + ALIEN_SIZE.x

/-- upper_bound computed in spawn_alien in src/main.rs: RIGHT_WALL minus
the full alien width. -/
def spawn_upper_bound : ℚ := RIGHT_WALL - ALIEN_SIZE.x

/-- starting_y computed in spawn_alien in src/main.rs: TOP_WALL minus half
the alien width (the x component of ALIEN_SIZE — the asymmetry the source
really has). -/
def alien_starting_y : ℚ := TOP_WALL - ALIEN_SIZE.x / 2

/-- spawn_alien from src/main.rs.  The repeating timer state reaches the
system as the Bool timerFinished; the RNG draw gen_range(lower..upper) is
the parameter randX, which the RNG contract guarantees lies in the
half-open interval from spawn_lower_bound to spawn_upper_bound. -/
def spawn_alien (timerFinished : Bool) (randX : ℚ) : List SpawnedEnt :=
  if timerFinished then
    [⟨⟨randX, alien_starting_y⟩, vecScale (vecNormalize INITIAL_ALIEN_DIRECTION) ALIEN_SPEED⟩]
  else []

/-- C3.  The claim asserts the horizontal spawn coordinate is drawn from
the interval starting at LEFT_WALL plus HALF the enemy width; the source
subtracts the FULL enemy width on both sides: the bounds are -380 and 380,
not -415 and 415.  (The vertical coordinate and velocity parts of the
claim are accurate.) -/
theorem C3_counterexample :
    spawn_lower_bound = -380 ∧ spawn_upper_bound = 380 ∧
    LEFT_WALL + ALIEN_SIZE.x / 2 = -415 ∧ RIGHT_WALL - ALIEN_SIZE.x / 2 = 415 ∧
    ¬ spawn_lower_bound = LEFT_WALL + ALIEN_SIZE.x / 2 := by
  norm_num [spawn_lower_bound, spawn_upper_bound, LEFT_WALL, RIGHT_WALL, ALIEN_SIZE]

/-- C3 (amended).  When the spawn timer fires the spawner creates exactly
one enemy whose horizontal coordinate is the RNG draw from the half-open
interval from LEFT_WALL + ALIEN_SIZE.x to RIGHT_WALL - ALIEN_SIZE.x (the
full enemy width, not half), whose vertical coordinate is
TOP_WALL - ALIEN_SIZE.x / 2 (offset by half the enemy width, not height),
and whose velocity is the fixed downward vector (0, -300); one integration
step with dt = 1 then lowers its y by 300.  When the timer has not fired
nothing is spawned. -/
theorem C3_alien_spawn (randX : ℚ)
    (hlo : spawn_lower_bound ≤ randX) (hhi : randX < spawn_upper_bound) :
    spawn_alien true randX = [⟨⟨randX, TOP_WALL - ALIEN_SIZE.x / 2⟩, ⟨0, -300⟩⟩] ∧
    spawn_lower_bound = LEFT_WALL + ALIEN_SIZE.x ∧
    spawn_upper_bound = RIGHT_WALL - ALIEN_SIZE.x ∧
    (apply_velocity ⟨randX, alien_starting_y⟩ ⟨0, -300⟩ 1).y = alien_starting_y - 300 ∧
    spawn_alien false randX = [] := by
  refine ⟨?_, rfl, rfl, ?_, rfl⟩
  · norm_num [spawn_alien, vecScale, vecNormalize, INITIAL_ALIEN_DIRECTION, ALIEN_SPEED,
      alien_starting_y]
  · simp only [apply_velocity]
    ring

/-- Witness for C3 at randX = 0. -/
theorem C3_alien_spawn_witness :
    spawn_alien true 0 = [⟨⟨0, TOP_WALL - ALIEN_SIZE.x / 2⟩, ⟨0, -300⟩⟩] ∧
    spawn_lower_bound = LEFT_WALL + ALIEN_SIZE.x ∧
    spawn_upper_bound = RIGHT_WALL - ALIEN_SIZE.x ∧
    (apply_velocity ⟨0, alien_starting_y⟩ ⟨0, -300⟩ 1).y = alien_starting_y - 300 ∧
    spawn_alien false 0 = [] :=
  C3_alien_spawn 0
    (by norm_num [spawn_lower_bound, LEFT_WALL, ALIEN_SIZE])
    (by norm_num [spawn_upper_bound, RIGHT_WALL, ALIEN_SIZE])

/-- fire_gun from src/main.rs: the spawn position is the paddle translation
with the FULL paddle height added to y (computed before the key test), and
on an edge-triggered fire key exactly one bullet is spawned there with the
normalized upward direction scaled by BULLET_SPEED. -/
def fire_gun (paddlePos : Vec2Q) (fireJustPressed : Bool) : List SpawnedEnt :=
  let firePos : Vec2Q := ⟨paddlePos.x, paddlePos.y + PADDLE_SIZE.y⟩
  if fireJustPressed then
    [⟨firePos, vecScale (vecNormalize INITIAL_BULLET_DIRECTION) BULLET_SPEED⟩]
  else []

/-- Modelled from the spec: the engine key edge-trigger just_pressed over a
run of ticks (the engine input resource is not part of this repository).
Given the held state of the key on the tick before the run and the held
state on each tick of the run, just_pressed is true exactly on a tick where
the key is held but was not held on the previous tick. -/
def just_pressed_seq (prev : Bool) : List Bool → List Bool
  | [] => []
  | h :: t => (h && !prev) :: just_pressed_seq h t

/-- Total number of projectiles spawned by fire_gun over a run of ticks
with the given per-tick edge-trigger values. -/
def fire_gun_total (paddlePos : Vec2Q) (triggers : List Bool) : ℕ :=
  (triggers.map fun jp => (fire_gun paddlePos jp).length).sum

theorem just_pressed_seq_replicate_true (n : ℕ) :
    just_pressed_seq true (List.replicate n true) = List.replicate n false := by
  induction n with
  | zero => rfl
  | succ k ih => simp [List.replicate, just_pressed_seq, ih]

theorem fire_gun_total_replicate_false (p : Vec2Q) (n : ℕ) :
    fire_gun_total p (List.replicate n false) = 0 := by
  induction n with
  | zero => rfl
  | succ k ih =>
    simp only [List.replicate, fire_gun_total, List.map_cons, List.sum_cons] at ih ⊢
    simpa [fire_gun] using ih

/-- C4.  The claim asserts the projectile is vertically offset from the
paddle center by the paddle HALF-height (10); the source adds the full
PADDLE_SIZE.y (20) to the paddle y before spawning, so with the paddle at
the origin the bullet appears at y = 20, not 10. -/
theorem C4_counterexample :
    (fire_gun ⟨0, 0⟩ true).map SpawnedEnt.position = [⟨0, 20⟩] ∧
    PADDLE_SIZE.y = 20 ∧ ¬ (20 : ℚ) = PADDLE_SIZE.y / 2 := by
  norm_num [fire_gun, PADDLE_SIZE]

/-- C4 (amended).  On each fire-key edge trigger fire_gun spawns exactly
one projectile at the paddle horizontal center, vertically offset from the
paddle center by the FULL paddle height PADDLE_SIZE.y, with velocity the
upward unit vector scaled by BULLET_SPEED, i.e. (0, 700); with no trigger
nothing is spawned; and holding the key across n + 1 ticks without a
release yields exactly one projectile in total. -/
theorem C4_fire_gun (p : Vec2Q) (n : ℕ) :
    fire_gun p true = [⟨⟨p.x, p.y + PADDLE_SIZE.y⟩, ⟨0, 700⟩⟩] ∧
    fire_gun p false = [] ∧
    fire_gun_total p (just_pressed_seq false (List.replicate (n + 1) true)) = 1 := by
  refine ⟨?_, rfl, ?_⟩
  · norm_num [fire_gun, vecScale, vecNormalize, INITIAL_BULLET_DIRECTION, BULLET_SPEED]
  · have hrep : List.replicate (n + 1) true = true :: List.replicate n true := rfl
    rw [hrep]
    simp only [just_pressed_seq, just_pressed_seq_replicate_true, Bool.not_false,
      Bool.and_true]
    simp only [fire_gun_total, List.map_cons, List.sum_cons]
    have h0 := fire_gun_total_replicate_false p n
    simp only [fire_gun_total] at h0
    simp [fire_gun, h0]

/-- Wrapping of a signed 16-bit value, the release-mode behaviour of the
i16 score field of the Scoreboard resource. -/
def i16wrap (z : ℤ) : ℤ := (z + 32768) % 65536 - 32768

/-- Wrapping decrement of an unsigned 16-bit value, the release-mode
behaviour of count -= 1 on the u16 count field of LivesCounter. -/
def u16dec (n : ℕ) : ℕ := (n + 65535) % 65536

/-- The translation and scale of an entity Transform, truncated to 2D the
way every collision call in the source truncates them. -/
structure Transform2 where
  translation : Vec2Q
  scale : Vec2Q
deriving DecidableEq, Repr

/-- One entity of the bullet query of check_for_collisions: its id and its
transform. -/
structure BulletEnt where
  id : ℕ
  transform : Transform2
deriving DecidableEq, Repr

/-- One entity of the collider query of check_for_collisions: its id, its
transform, and whether the optional Alien component is present. -/
structure ColliderEnt where
  id : ℕ
  transform : Transform2
  isAlien : Bool
deriving DecidableEq, Repr

/-- The state check_for_collisions threads through its loops: the two
resources it mutates, the deferred despawn commands it has issued (in
order, one entry per command), and the number of collision events sent. -/
structure CollisionOutcome where
  score : ℤ
  lives : ℕ
  despawns : List ℕ
  events : ℕ
deriving DecidableEq, Repr

/-- The collide call of the bullet loop: bullet translation and truncated
scale against the collider translation and truncated scale. -/
def overlapsBullet (c : ColliderEnt) (b : BulletEnt) : Bool :=
  collide b.transform.translation b.transform.scale c.transform.translation c.transform.scale

/-- The collide call of the paddle check: paddle translation and truncated
scale against the collider translation and truncated scale. -/
def overlapsPaddle (paddle : Transform2) (c : ColliderEnt) : Bool :=
  collide paddle.translation paddle.scale c.transform.translation c.transform.scale

/-- The collide call of the bottom-wall check: the bottom wall position and
size against the collider translation and truncated scale. -/
def overlapsBottomWall (c : ColliderEnt) : Bool :=
  collide WallLocation.Bottom.position WallLocation.Bottom.size
    c.transform.translation c.transform.scale

/-- One iteration of the bullet loop of check_for_collisions for a fixed
collider: on overlap a collision event is sent, and if the collider carries
Alien the score gains 3 (i16 arithmetic) and despawn commands are issued
for the collider and then the bullet. -/
def processBullet (c : ColliderEnt) (st : CollisionOutcome) (b : BulletEnt) : CollisionOutcome :=
  if overlapsBullet c b then
    if c.isAlien then
      { st with
        events := st.events + 1
        score := i16wrap (st.score + 3)
        despawns := st.despawns ++ [c.id, b.id] }
    else
      { st with events := st.events + 1 }
  else st

/-- The whole bullet loop of check_for_collisions for a fixed collider. -/
def processBullets (c : ColliderEnt) (bullets : List BulletEnt)
    (st : CollisionOutcome) : CollisionOutcome :=
  bullets.foldl (processBullet c) st

/-- One iteration of the collider loop of check_for_collisions: the bullet
loop, then the paddle check (on an alien overlapping the paddle the u16
lives count is decremented with no guard and the alien despawned), then the
bottom-wall check (on an alien overlapping the bottom wall the score loses
1 and the alien is despawned). -/
def processCollider (paddle : Transform2) (bullets : List BulletEnt)
    (st : CollisionOutcome) (c : ColliderEnt) : CollisionOutcome :=
  let st1 := processBullets c bullets st
  let st2 :=
    if overlapsPaddle paddle c && c.isAlien then
      { st1 with lives := u16dec st1.lives, despawns := st1.despawns ++ [c.id] }
    else st1
  if overlapsBottomWall c && c.isAlien then
    { st2 with score := i16wrap (st2.score - 1), despawns := st2.despawns ++ [c.id] }
  else st2

/-- The inputs of one check_for_collisions run: the bullet query, the
collider query (aliens, walls and the paddle entity, each with Collider),
the single paddle transform, and the two resources. -/
structure CollisionWorld where
  bullets : List BulletEnt
  colliders : List ColliderEnt
  paddle : Transform2
  score : ℤ
  lives : ℕ
deriving DecidableEq, Repr

/-- check_for_collisions from src/main.rs: the collider loop folded over
the collider query, starting from the incoming resource values with no
despawn commands and no events. -/
def check_for_collisions (w : CollisionWorld) : CollisionOutcome :=
  w.colliders.foldl (processCollider w.paddle w.bullets) ⟨w.score, w.lives, [], 0⟩

/-- The bullets of the query that overlap a given collider, in query
order. -/
def bulletHits (bullets : List BulletEnt) (c : ColliderEnt) : List BulletEnt :=
  bullets.filter (overlapsBullet c)

/-- Number of overlapping alien-bullet pairs a single collider contributes. -/
def colliderPairCount (bullets : List BulletEnt) (c : ColliderEnt) : ℕ :=
  if c.isAlien then (bulletHits bullets c).length else 0

/-- 1 when the collider is an alien overlapping the paddle. -/
def paddleFlag (paddle : Transform2) (c : ColliderEnt) : ℕ :=
  if overlapsPaddle paddle c && c.isAlien then 1 else 0

/-- 1 when the collider is an alien overlapping the bottom wall. -/
def bottomFlag (c : ColliderEnt) : ℕ :=
  if overlapsBottomWall c && c.isAlien then 1 else 0

/-- The despawn commands one collider contributes, in order: for each
overlapping bullet of an alien collider the alien id then the bullet id,
then the alien id again on a paddle overlap, then the alien id again on a
bottom-wall overlap. -/
def colliderDespawns (paddle : Transform2) (bullets : List BulletEnt)
    (c : ColliderEnt) : List ℕ :=
  (if c.isAlien then (bulletHits bullets c).flatMap (fun b => [c.id, b.id]) else [])
    ++ (if overlapsPaddle paddle c && c.isAlien then [c.id] else [])
    ++ (if overlapsBottomWall c && c.isAlien then [c.id] else [])

/-- Total number of overlapping alien-bullet pairs in a world. -/
def pairCount (w : CollisionWorld) : ℕ :=
  (w.colliders.map (colliderPairCount w.bullets)).sum

/-- Total number of aliens overlapping the paddle in a world. -/
def paddleCount (w : CollisionWorld) : ℕ :=
  (w.colliders.map (paddleFlag w.paddle)).sum

/-- Total number of aliens overlapping the bottom wall in a world. -/
def bottomCount (w : CollisionWorld) : ℕ :=
  (w.colliders.map bottomFlag).sum

theorem i16wrap_mod (z : ℤ) : i16wrap z % 65536 = z % 65536 := by
  unfold i16wrap
  omega

theorem i16wrap_range (z : ℤ) : -32768 ≤ i16wrap z ∧ i16wrap z < 32768 := by
  unfold i16wrap
  omega

theorem processBullets_lives (c : ColliderEnt) (bs : List BulletEnt)
    (st : CollisionOutcome) : (processBullets c bs st).lives = st.lives := by
  induction bs generalizing st with
  | nil => rfl
  | cons b t ih =>
    show (processBullets c t (processBullet c st b)).lives = st.lives
    rw [ih]
    unfold processBullet
    split
    · split <;> rfl
    · rfl

theorem processBullets_despawns (c : ColliderEnt) (bs : List BulletEnt)
    (st : CollisionOutcome) :
    (processBullets c bs st).despawns =
      st.despawns ++
        (if c.isAlien then (bulletHits bs c).flatMap (fun b => [c.id, b.id]) else []) := by
  induction bs generalizing st with
  | nil => simp [processBullets, bulletHits]
  | cons b t ih =>
    show (processBullets c t (processBullet c st b)).despawns = _
    rw [ih]
    cases hov : overlapsBullet c b <;> cases ha : c.isAlien <;>
      simp [processBullet, bulletHits, hov, ha, List.filter_cons] <;>
      simp [bulletHits] at ih ⊢ <;>
      simp [List.append_assoc]

theorem processBullets_score_mod (c : ColliderEnt) (bs : List BulletEnt)
    (st : CollisionOutcome) :
    (processBullets c bs st).score % 65536 =
      (st.score + 3 * (colliderPairCount bs c : ℤ)) % 65536 := by
  induction bs generalizing st with
  | nil => simp [processBullets, colliderPairCount, bulletHits]
  | cons b t ih =>
    show (processBullets c t (processBullet c st b)).score % 65536 = _
    rw [ih]
    cases hov : overlapsBullet c b <;> cases ha : c.isAlien <;>
      simp only [processBullet, hov, ha, if_true, if_false, Bool.false_eq_true,
        colliderPairCount, bulletHits, List.filter_cons, ite_true, ite_false,
        List.length_cons] <;>
      simp [colliderPairCount, bulletHits, ha] at ih ⊢
    have hw := i16wrap_mod (st.score + 3)
    push_cast
    omega

theorem processBullets_score_range (c : ColliderEnt) (bs : List BulletEnt)
    (st : CollisionOutcome) (h : -32768 ≤ st.score ∧ st.score < 32768) :
    -32768 ≤ (processBullets c bs st).score ∧ (processBullets c bs st).score < 32768 := by
  induction bs generalizing st with
  | nil => exact h
  | cons b t ih =>
    show -32768 ≤ (processBullets c t (processBullet c st b)).score ∧ _
    apply ih
    unfold processBullet
    split
    · split
      · exact i16wrap_range _
      · exact h
    · exact h

theorem processBullets_nonalien (c : ColliderEnt) (bs : List BulletEnt)
    (st : CollisionOutcome) (ha : c.isAlien = false) :
    (processBullets c bs st).score = st.score ∧
    (processBullets c bs st).lives = st.lives ∧
    (processBullets c bs st).despawns = st.despawns := by
  refine ⟨?_, processBullets_lives c bs st, ?_⟩
  · induction bs generalizing st with
    | nil => rfl
    | cons b t ih =>
      show (processBullets c t (processBullet c st b)).score = st.score
      rw [ih]
      unfold processBullet
      split
      · rw [ha]
        simp
      · rfl
  · rw [processBullets_despawns, ha]
    simp

theorem processCollider_despawns (p : Transform2) (bs : List BulletEnt)
    (st : CollisionOutcome) (c : ColliderEnt) :
    (processCollider p bs st c).despawns = st.despawns ++ colliderDespawns p bs c := by
  unfold processCollider colliderDespawns
  cases hp : overlapsPaddle p c && c.isAlien <;>
    cases hb : overlapsBottomWall c && c.isAlien <;>
    simp [hp, hb, processBullets_despawns, List.append_assoc]

theorem processCollider_lives (p : Transform2) (bs : List BulletEnt)
    (st : CollisionOutcome) (c : ColliderEnt) :
    (processCollider p bs st c).lives =
      if overlapsPaddle p c && c.isAlien then u16dec st.lives else st.lives := by
  unfold processCollider
  cases hp : overlapsPaddle p c && c.isAlien <;>
    cases hb : overlapsBottomWall c && c.isAlien <;>
    simp [hp, hb, processBullets_lives]

theorem processCollider_score_mod (p : Transform2) (bs : List BulletEnt)
    (st : CollisionOutcome) (c : ColliderEnt) :
    (processCollider p bs st c).score % 65536 =
      (st.score + 3 * (colliderPairCount bs c : ℤ) - (bottomFlag c : ℤ)) % 65536 := by
  unfold processCollider bottomFlag
  have hsm := processBullets_score_mod c bs st
  cases hp : overlapsPaddle p c && c.isAlien <;>
    cases hb : overlapsBottomWall c && c.isAlien <;>
    simp only [hp, hb, if_true, if_false, Bool.false_eq_true, ite_true, ite_false] <;>
    simp only [Nat.cast_one, Nat.cast_zero] <;>
    first
      | (have hw := i16wrap_mod ((processBullets c bs st).score - 1); omega)
      | omega

theorem processCollider_score_range (p : Transform2) (bs : List BulletEnt)
    (st : CollisionOutcome) (c : ColliderEnt)
    (h : -32768 ≤ st.score ∧ st.score < 32768) :
    -32768 ≤ (processCollider p bs st c).score ∧
      (processCollider p bs st c).score < 32768 := by
  unfold processCollider
  have hr := processBullets_score_range c bs st h
  cases hp : overlapsPaddle p c && c.isAlien <;>
    cases hb : overlapsBottomWall c && c.isAlien <;>
    simp only [hp, hb, if_true, if_false, Bool.false_eq_true, ite_true, ite_false] <;>
    first
      | exact i16wrap_range _
      | exact hr

theorem processCollider_nonalien (p : Transform2) (bs : List BulletEnt)
    (st : CollisionOutcome) (c : ColliderEnt) (ha : c.isAlien = false) :
    (processCollider p bs st c).score = st.score ∧
    (processCollider p bs st c).lives = st.lives ∧
    (processCollider p bs st c).despawns = st.despawns := by
  obtain ⟨h1, h2, h3⟩ := processBullets_nonalien c bs st ha
  unfold processCollider
  simp [ha, h1, h2, h3]

theorem foldl_colliders_despawns (p : Transform2) (bs : List BulletEnt)
    (cs : List ColliderEnt) (st : CollisionOutcome) :
    (cs.foldl (processCollider p bs) st).despawns =
      st.despawns ++ cs.flatMap (colliderDespawns p bs) := by
  induction cs generalizing st with
  | nil => simp
  | cons c t ih =>
    show (t.foldl (processCollider p bs) (processCollider p bs st c)).despawns = _
    rw [ih, processCollider_despawns]
    simp [List.append_assoc]

theorem foldl_colliders_score_mod (p : Transform2) (bs : List BulletEnt)
    (cs : List ColliderEnt) (st : CollisionOutcome) :
    (cs.foldl (processCollider p bs) st).score % 65536 =
      (st.score + 3 * ((cs.map (colliderPairCount bs)).sum : ℤ)
        - ((cs.map bottomFlag).sum : ℤ)) % 65536 := by
  induction cs generalizing st with
  | nil => simp
  | cons c t ih =>
    show (t.foldl (processCollider p bs) (processCollider p bs st c)).score % 65536 = _
    rw [ih]
    have hc := processCollider_score_mod p bs st c
    simp only [List.map_cons, List.sum_cons]
    push_cast
    omega

theorem foldl_colliders_score_range (p : Transform2) (bs : List BulletEnt)
    (cs : List ColliderEnt) (st : CollisionOutcome)
    (h : -32768 ≤ st.score ∧ st.score < 32768) :
    -32768 ≤ (cs.foldl (processCollider p bs) st).score ∧
      (cs.foldl (processCollider p bs) st).score < 32768 := by
  induction cs generalizing st with
  | nil => exact h
  | cons c t ih =>
    exact ih (processCollider p bs st c) (processCollider_score_range p bs st c h)

theorem foldl_colliders_nonalien (p : Transform2) (bs : List BulletEnt)
    (cs : List ColliderEnt) (st : CollisionOutcome)
    (h : ∀ c ∈ cs, c.isAlien = false) :
    (cs.foldl (processCollider p bs) st).score = st.score ∧
    (cs.foldl (processCollider p bs) st).lives = st.lives ∧
    (cs.foldl (processCollider p bs) st).despawns = st.despawns := by
  induction cs generalizing st with
  | nil => exact ⟨rfl, rfl, rfl⟩
  | cons c t ih =>
    obtain ⟨h1, h2, h3⟩ :=
      processCollider_nonalien p bs st c (h c (List.mem_cons_self c t))
    obtain ⟨g1, g2, g3⟩ :=
      ih (processCollider p bs st c) (fun x hx => h x (List.mem_cons_of_mem c hx))
    exact ⟨g1.trans h1, g2.trans h2, g3.trans h3⟩

theorem processBullets_no_hits (c : ColliderEnt) (bs : List BulletEnt)
    (st : CollisionOutcome) (h : bulletHits bs c = []) :
    processBullets c bs st = st := by
  induction bs generalizing st with
  | nil => rfl
  | cons b t ih =>
    rw [bulletHits, List.filter_cons] at h
    by_cases hov : overlapsBullet c b
    · simp [hov] at h
    · rw [if_neg (by simpa using hov)] at h
      show processBullets c t (processBullet c st b) = st
      rw [processBullet, if_neg (by simpa using hov)]
      exact ih st h

/-- C1.  One check_for_collisions run adds exactly 3 to the score per
overlapping alien-bullet pair (given the i16 score does not overflow and no
alien touches the bottom wall this tick, which would subtract from the
total), and the despawn commands it issues are exactly those of
colliderDespawns: per overlapping pair, one despawn of that alien and one
of that bullet. -/
theorem C1_enemy_projectile_pairs (w : CollisionWorld)
    (hs : -32768 ≤ w.score ∧ w.score < 32768)
    (hb : bottomCount w = 0)
    (ht : w.score + 3 * (pairCount w : ℤ) < 32768) :
    (check_for_collisions w).score = w.score + 3 * (pairCount w : ℤ) ∧
    (check_for_collisions w).despawns =
      w.colliders.flatMap (colliderDespawns w.paddle w.bullets) := by
  have hmod :=
    foldl_colliders_score_mod w.paddle w.bullets w.colliders ⟨w.score, w.lives, [], 0⟩
  have hrange :=
    foldl_colliders_score_range w.paddle w.bullets w.colliders ⟨w.score, w.lives, [], 0⟩
      (by exact hs)
  have hdes :=
    foldl_colliders_despawns w.paddle w.bullets w.colliders ⟨w.score, w.lives, [], 0⟩
  have hst :
      (({ score := w.score, lives := w.lives, despawns := [], events := 0 } :
        CollisionOutcome)).score = w.score := rfl
  rw [hst] at hmod
  unfold check_for_collisions
  unfold pairCount at ht ⊢
  unfold bottomCount at hb
  rw [hb] at hmod
  refine ⟨?_, by simpa using hdes⟩
  omega

/-- One overlapping alien-bullet pair in an otherwise quiet arena: bullet 1
and alien 2 sit at the origin, the paddle at its setup position. -/
def C1world : CollisionWorld :=
  { bullets := [⟨1, ⟨⟨0, 0⟩, BULLET_SIZE⟩⟩]
  , colliders := [⟨2, ⟨⟨0, 0⟩, ALIEN_SIZE⟩, true⟩]
  , paddle := ⟨⟨0, paddle_y⟩, PADDLE_SIZE⟩
  , score := 0
  , lives := 3 }

/-- Witness for C1 on C1world. -/
theorem C1_enemy_projectile_pairs_witness :
    (check_for_collisions C1world).score = C1world.score + 3 * (pairCount C1world : ℤ) ∧
    (check_for_collisions C1world).despawns =
      C1world.colliders.flatMap (colliderDespawns C1world.paddle C1world.bullets) :=
  C1_enemy_projectile_pairs C1world
    (by norm_num [C1world])
    (by norm_num [bottomCount, bottomFlag, C1world, overlapsBottomWall, collide,
      WallLocation.position, WallLocation.size, ALIEN_SIZE, BOTTOM_WALL, TOP_WALL,
      LEFT_WALL, RIGHT_WALL, WALL_THICKNESS])
    (by norm_num [pairCount, colliderPairCount, bulletHits, C1world, overlapsBullet,
      collide, ALIEN_SIZE, BULLET_SIZE, List.filter_cons, List.filter_nil])

/-- C8.  One check_for_collisions run subtracts exactly 1 from the score
per alien overlapping the bottom wall and despawns that alien (given the
i16 score does not overflow): the score characterization holds for every
world, whatever alien-bullet pairs exist in the same tick, and
colliderDespawns issues the bottom-wall despawn of the alien independently
of the bullet loop. -/
theorem C8_enemy_bottom_wall (w : CollisionWorld)
    (hs : -32768 ≤ w.score ∧ w.score < 32768)
    (ht1 : -32768 ≤ w.score - (bottomCount w : ℤ))
    (ht2 : w.score + 3 * (pairCount w : ℤ) - (bottomCount w : ℤ) < 32768) :
    (check_for_collisions w).score =
      w.score + 3 * (pairCount w : ℤ) - (bottomCount w : ℤ) ∧
    (check_for_collisions w).despawns =
      w.colliders.flatMap (colliderDespawns w.paddle w.bullets) := by
  have hmod :=
    foldl_colliders_score_mod w.paddle w.bullets w.colliders ⟨w.score, w.lives, [], 0⟩
  have hrange :=
    foldl_colliders_score_range w.paddle w.bullets w.colliders ⟨w.score, w.lives, [], 0⟩
      (by exact hs)
  have hdes :=
    foldl_colliders_despawns w.paddle w.bullets w.colliders ⟨w.score, w.lives, [], 0⟩
  have hst :
      (({ score := w.score, lives := w.lives, despawns := [], events := 0 } :
        CollisionOutcome)).score = w.score := rfl
  rw [hst] at hmod
  unfold check_for_collisions
  unfold pairCount at ht2 ⊢
  unfold bottomCount at ht1 ht2 ⊢
  refine ⟨?_, by simpa using hdes⟩
  omega

/-- An alien (id 5) that in the same tick overlaps both a bullet (id 4)
and the bottom wall, so the -1 and the despawn of the bottom-wall rule
coexist with the +3 of the pair rule. -/
def C8world : CollisionWorld :=
  { bullets := [⟨4, ⟨⟨0, -290⟩, BULLET_SIZE⟩⟩]
  , colliders := [⟨5, ⟨⟨0, -295⟩, ALIEN_SIZE⟩, true⟩]
  , paddle := ⟨⟨0, paddle_y⟩, PADDLE_SIZE⟩
  , score := 10
  , lives := 3 }

/-- Witness for C8 on C8world. -/
theorem C8_enemy_bottom_wall_witness :
    (check_for_collisions C8world).score =
      C8world.score + 3 * (pairCount C8world : ℤ) - (bottomCount C8world : ℤ) ∧
    (check_for_collisions C8world).despawns =
      C8world.colliders.flatMap (colliderDespawns C8world.paddle C8world.bullets) :=
  C8_enemy_bottom_wall C8world
    (by norm_num [C8world])
    (by norm_num [bottomCount, bottomFlag, C8world, overlapsBottomWall, collide,
      WallLocation.position, WallLocation.size, ALIEN_SIZE, BOTTOM_WALL, TOP_WALL,
      LEFT_WALL, RIGHT_WALL, WALL_THICKNESS])
    (by norm_num [pairCount, colliderPairCount, bulletHits, bottomCount, bottomFlag,
      C8world, overlapsBullet, overlapsBottomWall, collide, WallLocation.position,
      WallLocation.size, ALIEN_SIZE, BULLET_SIZE, BOTTOM_WALL, TOP_WALL, LEFT_WALL,
      RIGHT_WALL, WALL_THICKNESS, List.filter_cons, List.filter_nil])

/-- A bullet (id 1) sitting on the top wall, whose rectangle is in the
collider query (id 3) exactly as setup spawns it (walls carry Collider). -/
def C9world : CollisionWorld :=
  { bullets := [⟨1, ⟨⟨0, TOP_WALL⟩, BULLET_SIZE⟩⟩]
  , colliders := [⟨3, ⟨WallLocation.Top.position, WallLocation.Top.size⟩, false⟩]
  , paddle := ⟨⟨0, paddle_y⟩, PADDLE_SIZE⟩
  , score := 0
  , lives := 3 }

/-- C9.  The claim asserts the collision engine never tests or acts on an
overlap between a projectile and a side or top wall.  But the walls are
spawned with the Collider tag, so the bullet loop does test every bullet
against them and on overlap sends a collision event (the sound cue): with
one bullet overlapping the top wall the run emits one collision event, not
zero. -/
theorem C9_counterexample :
    (check_for_collisions C9world).events = 1 ∧
    ¬ (check_for_collisions C9world).events = 0 := by
  norm_num [check_for_collisions, C9world, processCollider, processBullets, processBullet,
    overlapsBullet, overlapsPaddle, overlapsBottomWall, collide, WallLocation.position,
    WallLocation.size, BULLET_SIZE, PADDLE_SIZE, paddle_y, BOTTOM_WALL, TOP_WALL,
    LEFT_WALL, RIGHT_WALL, WALL_THICKNESS, GAP_BETWEEN_PADDLE_AND_FLOOR]

/-- C9 (amended).  Side and top walls never cause any gameplay effect:
a run over a collider query holding no aliens (e.g. only wall rectangles
and the paddle) leaves score and lives unchanged and despawns nothing —
bullet-wall overlaps are tested and only emit collision events; and an
alien that overlaps nothing but a side or top wall (no bullet, not the
paddle, not the bottom wall) is left completely untouched, because the
collider loop never tests aliens against the side or top wall rectangles.
Hence enemies and projectiles pass through those walls. -/
theorem C9_side_top_walls_no_gameplay_effect :
    (∀ w : CollisionWorld, (∀ c ∈ w.colliders, c.isAlien = false) →
      (check_for_collisions w).score = w.score ∧
      (check_for_collisions w).lives = w.lives ∧
      (check_for_collisions w).despawns = []) ∧
    (∀ (p : Transform2) (bs : List BulletEnt) (st : CollisionOutcome) (c : ColliderEnt),
      c.isAlien = true → bulletHits bs c = [] →
      overlapsPaddle p c = false → overlapsBottomWall c = false →
      processCollider p bs st c = st) := by
  constructor
  · intro w h
    exact foldl_colliders_nonalien w.paddle w.bullets w.colliders ⟨w.score, w.lives, [], 0⟩ h
  · intro p bs st c _ hbul hp hbot
    unfold processCollider
    rw [processBullets_no_hits c bs st hbul]
    simp [hp, hbot]

/-- Witness for C9 on C9world: the top wall in the collider query causes no
score, lives or despawn change. -/
theorem C9_side_top_walls_no_gameplay_effect_witness :
    (check_for_collisions C9world).score = C9world.score ∧
    (check_for_collisions C9world).lives = C9world.lives ∧
    (check_for_collisions C9world).despawns = [] :=
  C9_side_top_walls_no_gameplay_effect.1 C9world (by decide)

/-- Two aliens (ids 10 and 11) overlapping the paddle in the same tick
while only one life remains. -/
def C10world : CollisionWorld :=
  { bullets := []
  , colliders := [⟨10, ⟨⟨0, paddle_y⟩, ALIEN_SIZE⟩, true⟩,
                  ⟨11, ⟨⟨30, paddle_y⟩, ALIEN_SIZE⟩, true⟩]
  , paddle := ⟨⟨0, paddle_y⟩, PADDLE_SIZE⟩
  , score := 0
  , lives := 1 }

/-- C10.  The lives decrement of the paddle check is an unguarded u16
subtraction: one decrement from 1 gives 0, a decrement from 0 wraps to
65535.  In a tick where two aliens overlap the paddle while lives equal 1,
the second decrement underflows the counter to 65535 instead of being a
no-op. -/
theorem C10_lives_underflow :
    paddleCount C10world = 2 ∧ C10world.lives = 1 ∧
    (check_for_collisions C10world).lives = 65535 ∧
    u16dec 1 = 0 ∧ u16dec 0 = 65535 := by
  norm_num [check_for_collisions, C10world, processCollider, processBullets, processBullet,
    paddleCount, paddleFlag, overlapsBullet, overlapsPaddle, overlapsBottomWall, collide,
    WallLocation.position, WallLocation.size, ALIEN_SIZE, PADDLE_SIZE, paddle_y,
    BOTTOM_WALL, TOP_WALL, LEFT_WALL, RIGHT_WALL, WALL_THICKNESS,
    GAP_BETWEEN_PADDLE_AND_FLOOR, u16dec]

end LearnBevy
